import Mathlib

/-
Shallow embedding of the sai2-primitives online trajectory generation (OTG)
wrappers around the Ruckig profile solver:
  - OTG_joints (src/src/helper_modules/OTG_joints.cpp), an N dimensional
    joint-space generator;
  - OTG_6dof_cartesian (header inlined in the same source file), a 6 dof
    pose generator.

Modelling choices:
  - Eigen double vectors become lists of rationals; a squared norm replaces
    the Euclidean norm (for c > 0, norm v < c iff sqNorm v < c^2, so every
    comparison in the source is translated to its squared form).
  - Eigen isApprox(a, b) with the default precision p = 1e-12 is
    (a - b).squaredNorm <= p^2 * min(a.squaredNorm, b.squaredNorm),
    translated literally.
  - Each C++ method mutates the object in place and may throw; it is
    embedded as State -> State x Option OTGError, returning the state as
    mutated at the moment of the throw (all the validated methods throw
    before any write, so they return the pre state together with the error).
  - The Ruckig solver is the out-of-scope collaborator: update() takes the
    result code and the sample the solver writes into the output parameter
    as explicit arguments (a SolverStep) and is quantified over them.
  - The jerk bound can be the infinity sentinel, so it is a list of
    JerkBound (a rational or inf).
-/

/-- Result codes of the Ruckig profile solver (ruckig::Result). -/
inductive SolverResult
  | Working
  | Finished
  | SolverError
deriving DecidableEq, Repr

/-- Synchronization behaviors of the Ruckig solver (ruckig::Synchronization). -/
inductive Synchronization
  | Time
  | TimeIfNecessary
  | Phase
  | NoSync
deriving DecidableEq, Repr

/-- Exceptions thrown by the wrappers: std::invalid_argument from the
validated setters and the constructor, std::runtime_error from update(). -/
inductive OTGError
  | invalid_argument (msg : String)
  | runtime_error (msg : String)
deriving DecidableEq, Repr

/-- A per-axis jerk bound: a finite value or the infinity sentinel written by
disableJerkLimits. -/
inductive JerkBound
  | val (q : ℚ)
  | inf
deriving DecidableEq, Repr

/-- Squared Euclidean norm of a vector. -/
def sqNorm (v : List ℚ) : ℚ := (v.map fun x => x * x).sum

/-- Componentwise difference of two vectors. -/
def vsub (a b : List ℚ) : List ℚ := List.zipWith (fun x y => x - y) a b

/-- The zero vector of a given dimension (Eigen VectorXd Zero). -/
def zeros (n : ℕ) : List ℚ := List.replicate n 0

/-- Eigen NumTraits double dummy_precision, the default tolerance of
isApprox. -/
def dummyPrecision : ℚ := 1 / 10 ^ 12

/-- Eigen isApprox with the default precision, in squared form:
(a - b).squaredNorm <= p^2 * min(a.squaredNorm, b.squaredNorm). -/
def isApprox (a b : List ℚ) : Bool :=
  decide (sqNorm (vsub a b) ≤ dummyPrecision ^ 2 * min (sqNorm a) (sqNorm b))

/-- True when some component of the vector is <= 0: for a vector that passed
the size check this is exactly the minCoeff() <= 0 test of the source. -/
def hasNonPositive (v : List ℚ) : Bool := v.any fun x => decide (x ≤ 0)

/-- The squared goal-velocity threshold: the source compares
new_velocity.norm() < 1e-3, squared here. -/
def velocityThresholdSq : ℚ := (1 / 1000) ^ 2

/-- State of an OTG_joints object: its fixed dimension and loop time, the
Ruckig input parameter (current state, target state, limits,
synchronization), the Ruckig output parameter (the exposed next sample), the
goal-reached flag and the last solver result. -/
structure OTG_joints where
  dim : ℕ
  loop_time : ℚ
  synchronization : Synchronization
  goal_reached : Bool
  result_value : SolverResult
  current_position : List ℚ
  current_velocity : List ℚ
  current_acceleration : List ℚ
  target_position : List ℚ
  target_velocity : List ℚ
  max_velocity : List ℚ
  max_acceleration : List ℚ
  max_jerk : List JerkBound
  new_position : List ℚ
  new_velocity : List ℚ
  new_acceleration : List ℚ
deriving DecidableEq, Repr

/-- Modelled from the spec: the member _goal_position_eigen, declared in the
missing header OTG_joints.h, tracks the currently commanded goal position
(the spec: update "re-issues the same goal as a fresh target"), so it equals
the target position held in the Ruckig input parameter. -/
def OTG_joints.goal_position_eigen (s : OTG_joints) : List ℚ :=
  s.target_position

/-- ruckig OutputParameter pass_to_input: copies the new sample of the output
parameter into the current state of the input parameter. -/
def OTG_joints.pass_to_input (s : OTG_joints) : OTG_joints :=
  { s with current_position := s.new_position,
           current_velocity := s.new_velocity,
           current_acceleration := s.new_acceleration }

/-- OTG_joints setGoalPositionAndVelocity: size check, then the isApprox
no-op test against the tracked goal, else clear the goal-reached flag and
write the new target. -/
def OTG_joints.setGoalPositionAndVelocity (goal_position goal_velocity : List ℚ)
    (s : OTG_joints) : OTG_joints × Option OTGError :=
  if goal_position.length ≠ s.dim ∨ goal_velocity.length ≠ s.dim then
    (s, some (OTGError.invalid_argument
      "goal position or velocity size does not match the dimension"))
  else if isApprox goal_position s.target_position
      && isApprox goal_velocity s.target_velocity then
    (s, none)
  else
    ({ s with goal_reached := false,
              target_position := goal_position,
              target_velocity := goal_velocity }, none)

/-- Modelled from the spec: setGoalPosition, declared in the missing header
OTG_joints.h, sets the goal position with zero goal velocity, as the inline
OTG_6dof_cartesian setGoalPosition present in the source does. -/
def OTG_joints.setGoalPosition (goal_position : List ℚ) (s : OTG_joints) :
    OTG_joints × Option OTGError :=
  OTG_joints.setGoalPositionAndVelocity goal_position (zeros s.dim) s

/-- OTG_joints reInitialize: size check, then write the new sample into the
output parameter (position to the argument, velocity and acceleration to
zero), pass it to the input parameter, and set the goal to the new position
at rest. -/
def OTG_joints.reInitialize (initial_position : List ℚ) (s : OTG_joints) :
    OTG_joints × Option OTGError :=
  if initial_position.length ≠ s.dim then
    (s, some (OTGError.invalid_argument
      "initial position size does not match the dimension"))
  else
    let s1 := { s with new_position := initial_position,
                       new_velocity := s.new_velocity.map fun _ => 0,
                       new_acceleration := s.new_acceleration.map fun _ => 0 }
    OTG_joints.setGoalPosition initial_position s1.pass_to_input

/-- The state of an OTG_joints object right after member initialization in
the constructor and before the constructor body runs: the dimension fixed to
the length of the initial position, zero-initialized input and output
parameters, the goal-reached flag at its false member initializer, the
result value at its Finished member initializer, and phase synchronization
selected. -/
def OTG_joints.initState (initial_position : List ℚ) (loop_time : ℚ) :
    OTG_joints :=
  { dim := initial_position.length
    loop_time := loop_time
    synchronization := Synchronization.Phase
    goal_reached := false
    result_value := SolverResult.Finished
    current_position := zeros initial_position.length
    current_velocity := zeros initial_position.length
    current_acceleration := zeros initial_position.length
    target_position := zeros initial_position.length
    target_velocity := zeros initial_position.length
    max_velocity := zeros initial_position.length
    max_acceleration := zeros initial_position.length
    max_jerk := List.replicate initial_position.length (JerkBound.val 0)
    new_position := zeros initial_position.length
    new_velocity := zeros initial_position.length
    new_acceleration := zeros initial_position.length }

/-- OTG_joints constructor: fixes the dimension to the length of the initial
position, builds the solver and the zero-initialized input and output
parameters, selects phase synchronization and reinitializes at the initial
position. -/
def OTG_joints.construct (initial_position : List ℚ) (loop_time : ℚ) :
    OTG_joints :=
  (OTG_joints.reInitialize initial_position
    (OTG_joints.initState initial_position loop_time)).1

/-- OTG_joints setMaxVelocity: size check, positivity check, then write the
limit. -/
def OTG_joints.setMaxVelocity (max_velocity : List ℚ) (s : OTG_joints) :
    OTG_joints × Option OTGError :=
  if max_velocity.length ≠ s.dim then
    (s, some (OTGError.invalid_argument
      "max velocity size does not match the dimension"))
  else if hasNonPositive max_velocity then
    (s, some (OTGError.invalid_argument
      "max velocity cannot be 0 or negative in any directions"))
  else
    ({ s with max_velocity := max_velocity }, none)

/-- OTG_joints setMaxAcceleration: size check, positivity check, then write
the limit. -/
def OTG_joints.setMaxAcceleration (max_acceleration : List ℚ) (s : OTG_joints) :
    OTG_joints × Option OTGError :=
  if max_acceleration.length ≠ s.dim then
    (s, some (OTGError.invalid_argument
      "max acceleration size does not match the dimension"))
  else if hasNonPositive max_acceleration then
    (s, some (OTGError.invalid_argument
      "max acceleration cannot be 0 or negative in any directions"))
  else
    ({ s with max_acceleration := max_acceleration }, none)

/-- OTG_joints setMaxJerk: size check, positivity check, then write the
limit (stored as finite jerk bounds). -/
def OTG_joints.setMaxJerk (max_jerk : List ℚ) (s : OTG_joints) :
    OTG_joints × Option OTGError :=
  if max_jerk.length ≠ s.dim then
    (s, some (OTGError.invalid_argument
      "max jerk size does not match the dimension"))
  else if hasNonPositive max_jerk then
    (s, some (OTGError.invalid_argument
      "max jerk cannot be 0 or negative in any directions"))
  else
    ({ s with max_jerk := max_jerk.map JerkBound.val }, none)

/-- OTG_joints disableJerkLimits: set every jerk bound to infinity and zero
the current acceleration of the input parameter. -/
def OTG_joints.disableJerkLimits (s : OTG_joints) : OTG_joints :=
  { s with max_jerk := s.max_jerk.map fun _ => JerkBound.inf,
           current_acceleration := s.current_acceleration.map fun _ => 0 }

/-- One response of the out-of-scope Ruckig solver: the result code and the
sample it writes into the output parameter. -/
structure SolverStep where
  result : SolverResult
  new_position : List ℚ
  new_velocity : List ℚ
  new_acceleration : List ℚ
deriving DecidableEq, Repr

/-- OTG_joints update: run the solver (whose response is the explicit step
argument), store its result and sample; on Finished either set the
goal-reached flag (new velocity norm below 1e-3) or re-issue the tracked
goal position; on Working pass the output to the input; otherwise throw
std::runtime_error. -/
def OTG_joints.update (step : SolverStep) (s : OTG_joints) :
    OTG_joints × Option OTGError :=
  let s1 := { s with result_value := step.result,
                     new_position := step.new_position,
                     new_velocity := step.new_velocity,
                     new_acceleration := step.new_acceleration }
  if s1.result_value = SolverResult.Finished then
    if sqNorm s1.new_velocity < velocityThresholdSq then
      ({ s1 with goal_reached := true }, none)
    else
      OTG_joints.setGoalPosition s1.goal_position_eigen s1
  else if s1.result_value = SolverResult.Working then
    (s1.pass_to_input, none)
  else
    (s1, some (OTGError.runtime_error
      "error in computing next state in OTG_joints update"))

/-- Modelled from the spec: the next-sample getters declared in the missing
header OTG_joints.h expose the new sample of the output parameter. -/
def OTG_joints.getNextPosition (s : OTG_joints) : List ℚ := s.new_position

/-- Modelled from the spec: see getNextPosition. -/
def OTG_joints.getNextVelocity (s : OTG_joints) : List ℚ := s.new_velocity

/-- Modelled from the spec: see getNextPosition. -/
def OTG_joints.getNextAcceleration (s : OTG_joints) : List ℚ :=
  s.new_acceleration

/-- Modelled from the spec: isGoalReached, declared in the missing header
OTG_joints.h, returns the goal-reached flag, as the inline
OTG_6dof_cartesian isGoalReached present in the source does. -/
def OTG_joints.isGoalReached (s : OTG_joints) : Bool := s.goal_reached

/-- A vector of three rationals. -/
structure Vec3Q where
  x : ℚ
  y : ℚ
  z : ℚ
deriving DecidableEq, Repr

/-- A 3 by 3 rational matrix given by its rows. -/
structure Mat3Q where
  r0 : Vec3Q
  r1 : Vec3Q
  r2 : Vec3Q
deriving DecidableEq, Repr

/-- Dot product of two 3-vectors. -/
def Vec3Q.dot (a b : Vec3Q) : ℚ := a.x * b.x + a.y * b.y + a.z * b.z

/-- Matrix times vector for 3 by 3 rational matrices. -/
def Mat3Q.mulVec (m : Mat3Q) (v : Vec3Q) : Vec3Q :=
  ⟨m.r0.dot v, m.r1.dot v, m.r2.dot v⟩

/-- Eigen tail of size three of a 6-vector: its components 3, 4 and 5. -/
def tail3 (v : List ℚ) : Vec3Q :=
  ⟨v.getD 3 0, v.getD 4 0, v.getD 5 0⟩

/-- The last three components of a vector, as the spec words it (for a
6-vector this is the same as the Eigen tail of size three). -/
def lastThree (v : List ℚ) : Vec3Q :=
  tail3 (zeros (6 - v.length) ++ v)

/-- State of an OTG_6dof_cartesian object, from the header inlined in the
source: the goal-reached flag, the last solver result, the tracked reference
frame and base-frame goal data, and the 6 dof Ruckig input and output
parameters. -/
structure OTG_6dof_cartesian where
  goal_reached : Bool
  result_value : SolverResult
  reference_frame : Mat3Q
  goal_orientation_in_base_frame : Mat3Q
  goal_angular_velocity_in_base_frame : Vec3Q
  current_position : List ℚ
  current_velocity : List ℚ
  current_acceleration : List ℚ
  target_position : List ℚ
  target_velocity : List ℚ
  max_velocity : List ℚ
  max_acceleration : List ℚ
  max_jerk : List JerkBound
  new_position : List ℚ
  new_velocity : List ℚ
  new_acceleration : List ℚ
deriving DecidableEq, Repr

/-- OTG_6dof_cartesian disableJerkLimits, inline in the header: set every
jerk bound to infinity (and nothing else). -/
def OTG_6dof_cartesian.disableJerkLimits (s : OTG_6dof_cartesian) :
    OTG_6dof_cartesian :=
  { s with max_jerk := s.max_jerk.map fun _ => JerkBound.inf }

/-- OTG_6dof_cartesian getNextAngularVelocity, inline in the header: the
reference frame times the tail of size three of the new velocity. -/
def OTG_6dof_cartesian.getNextAngularVelocity (s : OTG_6dof_cartesian) :
    Vec3Q :=
  s.reference_frame.mulVec (tail3 s.new_velocity)

/-- OTG_6dof_cartesian getNextAngularAcceleration, inline in the header: the
reference frame times the tail of size three of the new acceleration. -/
def OTG_6dof_cartesian.getNextAngularAcceleration (s : OTG_6dof_cartesian) :
    Vec3Q :=
  s.reference_frame.mulVec (tail3 s.new_acceleration)

/-- OTG_6dof_cartesian isGoalReached, inline in the header. -/
def OTG_6dof_cartesian.isGoalReached (s : OTG_6dof_cartesian) : Bool :=
  s.goal_reached

/-- The class invariant of OTG_joints used by the theorems: the target vectors
held in the Ruckig input parameter have the size of the generator (in the
source they are fixed-size Eigen members of the input parameter). -/
def OTG_joints.targetsSized (s : OTG_joints) : Prop :=
  s.target_position.length = s.dim ∧ s.target_velocity.length = s.dim

instance (s : OTG_joints) : Decidable s.targetsSized := by
  unfold OTG_joints.targetsSized; infer_instance

lemma sqNorm_cons (x : ℚ) (xs : List ℚ) :
    sqNorm (x :: xs) = x * x + sqNorm xs := by
  simp [sqNorm]

lemma sqNorm_nonneg (v : List ℚ) : 0 ≤ sqNorm v := by
  induction v with
  | nil => simp [sqNorm]
  | cons x xs ih =>
    rw [sqNorm_cons]
    exact add_nonneg (mul_self_nonneg x) ih

lemma sqNorm_zeros (n : ℕ) : sqNorm (zeros n) = 0 := by
  induction n with
  | zero => rfl
  | succ n ih => simp [zeros, List.replicate_succ, sqNorm_cons] at *; exact ih

lemma sqNorm_eq_zero_iff (v : List ℚ) : sqNorm v = 0 ↔ v = zeros v.length := by
  induction v with
  | nil => simp [sqNorm, zeros]
  | cons x xs ih =>
    rw [sqNorm_cons]
    constructor
    · intro h
      have hx : x * x = 0 ∧ sqNorm xs = 0 :=
        (add_eq_zero_iff_of_nonneg (mul_self_nonneg x) (sqNorm_nonneg xs)).mp h
      have hx0 : x = 0 := mul_self_eq_zero.mp hx.1
      have hxs := ih.mp hx.2
      simp [zeros, List.replicate_succ, hx0]
      simpa [zeros] using hxs
    · intro h
      simp [zeros, List.replicate_succ] at h
      have : sqNorm xs = 0 := by
        rw [h.2]
        simpa [zeros] using sqNorm_zeros xs.length
      rw [h.1, this]
      simp

lemma vsub_self_eq_zeros (v : List ℚ) : vsub v v = zeros v.length := by
  induction v with
  | nil => rfl
  | cons x xs ih =>
    simp only [vsub, zeros, List.length_cons, List.replicate_succ,
      List.zipWith_cons_cons, sub_self] at *
    simp [ih]

lemma vsub_zeros_left (v : List ℚ) :
    vsub (zeros v.length) v = v.map fun x => -x := by
  induction v with
  | nil => rfl
  | cons x xs ih =>
    simp only [vsub, zeros, List.length_cons, List.replicate_succ,
      List.zipWith_cons_cons, List.map_cons, zero_sub] at *
    simp [ih]

lemma sqNorm_map_neg (v : List ℚ) : sqNorm (v.map fun x => -x) = sqNorm v := by
  induction v with
  | nil => rfl
  | cons x xs ih => simp [sqNorm_cons, List.map_cons, ih]

lemma isApprox_self (a : List ℚ) : isApprox a a = true := by
  have h0 : sqNorm (vsub a a) = 0 := by
    rw [vsub_self_eq_zeros]; exact sqNorm_zeros a.length
  have hmin : 0 ≤ min (sqNorm a) (sqNorm a) :=
    le_min (sqNorm_nonneg a) (sqNorm_nonneg a)
  simp only [isApprox, h0, decide_eq_true_iff]
  positivity

lemma isApprox_zeros_left_iff (n : ℕ) (v : List ℚ) (h : v.length = n) :
    isApprox (zeros n) v = true ↔ v = zeros n := by
  subst h
  have hmin : min (sqNorm (zeros v.length)) (sqNorm v) = 0 := by
    rw [sqNorm_zeros]; exact min_eq_left (sqNorm_nonneg v)
  constructor
  · intro h
    simp only [isApprox, decide_eq_true_iff, hmin, mul_zero] at h
    have h0 : sqNorm (vsub (zeros v.length) v) = 0 :=
      le_antisymm h (sqNorm_nonneg _)
    rw [vsub_zeros_left, sqNorm_map_neg] at h0
    exact (sqNorm_eq_zero_iff v).mp h0
  · intro h2
    conv_lhs => rw [h2]
    rw [show (zeros v.length).length = v.length from List.length_replicate _ _]
    exact isApprox_self (zeros v.length)

lemma setGoalPosition_reissue (s : OTG_joints)
    (hp : s.target_position.length = s.dim)
    (hv : s.target_velocity.length = s.dim) :
    OTG_joints.setGoalPosition s.target_position s =
      (if s.target_velocity = zeros s.dim then s
       else { s with goal_reached := false,
                     target_velocity := zeros s.dim }, none) := by
  unfold OTG_joints.setGoalPosition OTG_joints.setGoalPositionAndVelocity
  rw [if_neg (by simp [hp, zeros])]
  by_cases htv : s.target_velocity = zeros s.dim
  · rw [if_pos, if_pos htv]
    rw [isApprox_self, (isApprox_zeros_left_iff s.dim s.target_velocity hv).mpr htv]
    rfl
  · rw [if_neg, if_neg htv]
    intro hc
    apply htv
    rw [Bool.and_eq_true] at hc
    exact (isApprox_zeros_left_iff s.dim s.target_velocity hv).mp hc.2

lemma update_finished_big_velocity (step : SolverStep) (s : OTG_joints)
    (hp : s.target_position.length = s.dim)
    (hv : s.target_velocity.length = s.dim)
    (hres : step.result = SolverResult.Finished)
    (hbig : ¬ sqNorm step.new_velocity < velocityThresholdSq) :
    OTG_joints.update step s =
      ((if s.target_velocity = zeros s.dim then
          { s with result_value := step.result,
                   new_position := step.new_position,
                   new_velocity := step.new_velocity,
                   new_acceleration := step.new_acceleration }
        else
          { s with result_value := step.result,
                   new_position := step.new_position,
                   new_velocity := step.new_velocity,
                   new_acceleration := step.new_acceleration,
                   goal_reached := false,
                   target_velocity := zeros s.dim }), none) := by
  have h := setGoalPosition_reissue
    { s with result_value := step.result,
             new_position := step.new_position,
             new_velocity := step.new_velocity,
             new_acceleration := step.new_acceleration } hp hv
  unfold OTG_joints.update
  simp only [hres, reduceIte, OTG_joints.goal_position_eigen] at *
  rw [if_neg hbig]
  rw [h]

lemma update_finished_small (step : SolverStep) (s : OTG_joints)
    (hres : step.result = SolverResult.Finished)
    (hsmall : sqNorm step.new_velocity < velocityThresholdSq) :
    OTG_joints.update step s =
      ({ s with result_value := step.result,
                new_position := step.new_position,
                new_velocity := step.new_velocity,
                new_acceleration := step.new_acceleration,
                goal_reached := true }, none) := by
  unfold OTG_joints.update
  simp only [hres, reduceIte]
  rw [if_pos hsmall]

lemma update_working (step : SolverStep) (s : OTG_joints)
    (hres : step.result = SolverResult.Working) :
    OTG_joints.update step s =
      (OTG_joints.pass_to_input
        { s with result_value := step.result,
                 new_position := step.new_position,
                 new_velocity := step.new_velocity,
                 new_acceleration := step.new_acceleration }, none) := by
  unfold OTG_joints.update
  simp [hres]

lemma update_solver_error (step : SolverStep) (s : OTG_joints)
    (hres : step.result = SolverResult.SolverError) :
    OTG_joints.update step s =
      ({ s with result_value := step.result,
                new_position := step.new_position,
                new_velocity := step.new_velocity,
                new_acceleration := step.new_acceleration },
       some (OTGError.runtime_error
         "error in computing next state in OTG_joints update")) := by
  unfold OTG_joints.update
  simp [hres]

/-- A concrete one dimensional generator state with correctly sized target
vectors and a nonzero commanded goal velocity, used to instantiate the
theorems. -/
def sampleState : OTG_joints :=
  { dim := 1
    loop_time := 1 / 1000
    synchronization := Synchronization.Phase
    goal_reached := false
    result_value := SolverResult.Working
    current_position := [0]
    current_velocity := [0]
    current_acceleration := [0]
    target_position := [7]
    target_velocity := [2]
    max_velocity := [1]
    max_acceleration := [1]
    max_jerk := [JerkBound.val 1]
    new_position := [0]
    new_velocity := [0]
    new_acceleration := [0] }

/-- A one dimensional generator driven through the API into the goal-reached
state at position 1: constructed at 0, commanded to 1 at rest, then one
Finished solver step with zero residual velocity. -/
def reachedState : OTG_joints :=
  (OTG_joints.update ⟨SolverResult.Finished, [1], [0], [0]⟩
    ((OTG_joints.setGoalPositionAndVelocity [1] [0]
      (OTG_joints.construct [0] (1 / 1000))).1)).1

lemma reachedState_eq :
    reachedState =
      { dim := 1
        loop_time := 1 / 1000
        synchronization := Synchronization.Phase
        goal_reached := true
        result_value := SolverResult.Finished
        current_position := [0]
        current_velocity := [0]
        current_acceleration := [0]
        target_position := [1]
        target_velocity := [0]
        max_velocity := [0]
        max_acceleration := [0]
        max_jerk := [JerkBound.val 0]
        new_position := [1]
        new_velocity := [0]
        new_acceleration := [0] } := by
  norm_num [reachedState, OTG_joints.construct, OTG_joints.initState,
    OTG_joints.reInitialize,
    OTG_joints.setGoalPosition, OTG_joints.setGoalPositionAndVelocity,
    OTG_joints.pass_to_input, OTG_joints.update, OTG_joints.goal_position_eigen,
    zeros, isApprox, sqNorm, vsub, dummyPrecision, velocityThresholdSq, min_def]

/-- C1 (amended): on a Finished solver result with residual velocity norm
below 1e-3, update sets the goal-reached flag to true; on a Finished result
with residual at or above the threshold it re-issues the tracked goal
position as a fresh target with zero goal velocity, and the flag can only be
true afterwards if it was already true with an exactly zero tracked goal
velocity (in particular it stays false whenever it was false before the
call); and the flag moves from false to true exactly on a Finished result
with residual below the threshold. -/
theorem C1_goal_reached_amended (step : SolverStep) (s : OTG_joints)
    (hwf : s.targetsSized) :
    (step.result = SolverResult.Finished →
        sqNorm step.new_velocity < velocityThresholdSq →
        (OTG_joints.update step s).1.goal_reached = true)
    ∧ (step.result = SolverResult.Finished →
        ¬ sqNorm step.new_velocity < velocityThresholdSq →
        (OTG_joints.update step s).1.target_position = s.target_position
        ∧ (OTG_joints.update step s).1.target_velocity = zeros s.dim
        ∧ ((OTG_joints.update step s).1.goal_reached = true →
            s.goal_reached = true ∧ s.target_velocity = zeros s.dim))
    ∧ (s.goal_reached = false →
        (OTG_joints.update step s).1.goal_reached = true →
        step.result = SolverResult.Finished
        ∧ sqNorm step.new_velocity < velocityThresholdSq) := by
  obtain ⟨hp, hv⟩ := hwf
  refine ⟨?_, ?_, ?_⟩
  · intro hres hsmall
    rw [update_finished_small step s hres hsmall]
  · intro hres hbig
    rw [update_finished_big_velocity step s hp hv hres hbig]
    split
    case isTrue h => exact ⟨rfl, h, fun hg => ⟨hg, h⟩⟩
    case isFalse h => exact ⟨rfl, rfl, by simp⟩
  · intro hflag hafter
    cases hres : step.result
    case Working =>
      rw [update_working step s hres] at hafter
      simp only [OTG_joints.pass_to_input] at hafter
      rw [hflag] at hafter
      exact absurd hafter (by simp)
    case SolverError =>
      rw [update_solver_error step s hres] at hafter
      rw [hflag] at hafter
      exact absurd hafter (by simp)
    case Finished =>
      by_cases hsmall : sqNorm step.new_velocity < velocityThresholdSq
      · exact ⟨rfl, hsmall⟩
      · rw [update_finished_big_velocity step s hp hv hres hsmall] at hafter
        split at hafter
        · rw [hflag] at hafter
          exact absurd hafter (by simp)
        · exact absurd hafter (by simp)

/-- C1 counterexample: from the reachable goal-reached state at position 1,
one more update with a Finished result and residual velocity 1 (norm at or
above the threshold) takes the re-issue branch yet leaves the goal-reached
flag true, while the claim says the flag is left false in that branch. -/
theorem C1_flag_survives_counterexample :
    ¬ sqNorm ([1] : List ℚ) < velocityThresholdSq
    ∧ (OTG_joints.update ⟨SolverResult.Finished, [1], [1], [0]⟩
        reachedState).1.goal_reached = true := by
  constructor
  · norm_num [sqNorm, velocityThresholdSq]
  · rw [reachedState_eq]
    norm_num [OTG_joints.update, OTG_joints.setGoalPosition,
      OTG_joints.setGoalPositionAndVelocity, OTG_joints.goal_position_eigen,
      zeros, isApprox, sqNorm, vsub, dummyPrecision, velocityThresholdSq, min_def]

/-- C1 witness: the amended theorem applied to a concrete state and a
Finished step with zero residual velocity. -/
theorem C1_goal_reached_amended_witness :
    (OTG_joints.update ⟨SolverResult.Finished, [5], [0], [0]⟩
      sampleState).1.goal_reached = true := by
  have h := C1_goal_reached_amended ⟨SolverResult.Finished, [5], [0], [0]⟩
    sampleState ⟨rfl, rfl⟩
  exact h.1 rfl (by norm_num [sqNorm, velocityThresholdSq])

/-- C4: update throws exactly when the profile solver reports the error
result value; on Working and Finished it returns without throwing. -/
theorem C4_update_error_iff (step : SolverStep) (s : OTG_joints)
    (hwf : s.targetsSized) :
    (OTG_joints.update step s).2 ≠ none ↔
      step.result = SolverResult.SolverError := by
  obtain ⟨hp, hv⟩ := hwf
  cases hres : step.result
  case Working => rw [update_working step s hres]; simp
  case Finished =>
    by_cases hsmall : sqNorm step.new_velocity < velocityThresholdSq
    · rw [update_finished_small step s hres hsmall]; simp
    · rw [update_finished_big_velocity step s hp hv hres hsmall]; simp
  case SolverError => rw [update_solver_error step s hres]; simp

/-- C4 witness: the theorem applied to a concrete state and a solver error
step. -/
theorem C4_update_error_iff_witness :
    (OTG_joints.update ⟨SolverResult.SolverError, [0], [0], [0]⟩
      sampleState).2 ≠ none :=
  (C4_update_error_iff ⟨SolverResult.SolverError, [0], [0], [0]⟩
    sampleState ⟨rfl, rfl⟩).mpr rfl

/-- C10: when update observes a Finished solver result with residual
velocity norm at or above the threshold, the re-issued goal keeps the
tracked goal position and sets the tracked goal velocity to the zero vector,
and the call returns without throwing. -/
theorem C10_reissue_rest_goal (step : SolverStep) (s : OTG_joints)
    (hwf : s.targetsSized)
    (hres : step.result = SolverResult.Finished)
    (hbig : ¬ sqNorm step.new_velocity < velocityThresholdSq) :
    (OTG_joints.update step s).2 = none
    ∧ (OTG_joints.update step s).1.target_position = s.target_position
    ∧ (OTG_joints.update step s).1.target_velocity = zeros s.dim := by
  obtain ⟨hp, hv⟩ := hwf
  rw [update_finished_big_velocity step s hp hv hres hbig]
  refine ⟨by split <;> rfl, by split <;> rfl, ?_⟩
  split
  case isTrue h => exact h
  case isFalse h => rfl

/-- C10 witness: the theorem applied to a concrete state whose previously
commanded goal velocity is the nonzero vector with entry 2. -/
theorem C10_reissue_rest_goal_witness :
    sampleState.target_velocity = [2]
    ∧ (OTG_joints.update ⟨SolverResult.Finished, [7], [1], [0]⟩
        sampleState).1.target_velocity = zeros 1 := by
  refine ⟨rfl, ?_⟩
  exact (C10_reissue_rest_goal ⟨SolverResult.Finished, [7], [1], [0]⟩
    sampleState ⟨rfl, rfl⟩ rfl (by norm_num [sqNorm, velocityThresholdSq])).2.2

lemma hasNonPositive_iff (v : List ℚ) :
    hasNonPositive v = true ↔ ∃ x ∈ v, x ≤ 0 := by
  simp [hasNonPositive, List.any_eq_true]

/-- C3: each of setMaxVelocity, setMaxAcceleration and setMaxJerk fails
exactly when the vector size differs from the dimension or some component is
at most zero, every such failure is an InvalidArgument error that leaves the
whole state (the previously-set limits included) unchanged, and a vector of
the right size with all components positive is written as the new limit. -/
theorem C3_limit_setters (v : List ℚ) (s : OTG_joints) :
    ((OTG_joints.setMaxVelocity v s).2 ≠ none ↔
        v.length ≠ s.dim ∨ ∃ x ∈ v, x ≤ 0)
    ∧ (∀ e, (OTG_joints.setMaxVelocity v s).2 = some e →
        ∃ msg, e = OTGError.invalid_argument msg)
    ∧ ((OTG_joints.setMaxVelocity v s).2 ≠ none →
        (OTG_joints.setMaxVelocity v s).1 = s)
    ∧ (v.length = s.dim → (∀ x ∈ v, 0 < x) →
        OTG_joints.setMaxVelocity v s = ({ s with max_velocity := v }, none))
    ∧ ((OTG_joints.setMaxAcceleration v s).2 ≠ none ↔
        v.length ≠ s.dim ∨ ∃ x ∈ v, x ≤ 0)
    ∧ (∀ e, (OTG_joints.setMaxAcceleration v s).2 = some e →
        ∃ msg, e = OTGError.invalid_argument msg)
    ∧ ((OTG_joints.setMaxAcceleration v s).2 ≠ none →
        (OTG_joints.setMaxAcceleration v s).1 = s)
    ∧ (v.length = s.dim → (∀ x ∈ v, 0 < x) →
        OTG_joints.setMaxAcceleration v s =
          ({ s with max_acceleration := v }, none))
    ∧ ((OTG_joints.setMaxJerk v s).2 ≠ none ↔
        v.length ≠ s.dim ∨ ∃ x ∈ v, x ≤ 0)
    ∧ (∀ e, (OTG_joints.setMaxJerk v s).2 = some e →
        ∃ msg, e = OTGError.invalid_argument msg)
    ∧ ((OTG_joints.setMaxJerk v s).2 ≠ none →
        (OTG_joints.setMaxJerk v s).1 = s)
    ∧ (v.length = s.dim → (∀ x ∈ v, 0 < x) →
        OTG_joints.setMaxJerk v s =
          ({ s with max_jerk := v.map JerkBound.val }, none)) := by
  have hb := hasNonPositive_iff v
  unfold OTG_joints.setMaxVelocity OTG_joints.setMaxAcceleration
    OTG_joints.setMaxJerk
  by_cases hlen : v.length = s.dim
  · by_cases hpos : hasNonPositive v
    · have hex : ∃ x ∈ v, x ≤ 0 := hb.mp hpos
      obtain ⟨x, hx, hx0⟩ := hex
      simp only [hlen, hpos, ne_eq, not_true_eq_false, reduceIte, if_false,
        if_true]
      refine ⟨?_, ?_, ?_, ?_, ?_, ?_, ?_, ?_, ?_, ?_, ?_, ?_⟩ <;> try simp
      all_goals exact ⟨x, hx, hx0⟩
    · have hforall : ¬ ∃ x ∈ v, x ≤ 0 := by
        rw [← hb]; simp [hpos]
      simp only [hlen, ne_eq, not_true_eq_false, reduceIte, hpos,
        Bool.false_eq_true, if_false]
      simp [hforall, hlen]
  · simp only [hlen, ne_eq, not_false_eq_true, reduceIte, if_true]
    simp [hlen]

/-- C3 witness: a failing call with a nonpositive component leaves the state
unchanged, and a valid call writes the limit. -/
theorem C3_limit_setters_witness :
    (OTG_joints.setMaxVelocity [1, -1] sampleState).2 ≠ none
    ∧ OTG_joints.setMaxVelocity [3] sampleState =
        ({ sampleState with max_velocity := [3] }, none) := by
  have h := C3_limit_setters [1, -1] sampleState
  have h2 := C3_limit_setters [3] sampleState
  constructor
  · exact h.1.mpr (Or.inr ⟨-1, by simp, by norm_num⟩)
  · exact h2.2.2.2.1 rfl (by intro x hx; simp at hx; rw [hx]; norm_num)

/-- C2: for goal vectors of the correct dimension,
setGoalPositionAndVelocity is a no-op (the goal-reached flag included) when
both arguments are approximately equal to the tracked goal, and otherwise
clears the goal-reached flag and replaces the tracked goal position and
velocity with the arguments. -/
theorem C2_goal_change_detection (p v : List ℚ) (s : OTG_joints)
    (hp : p.length = s.dim) (hv : v.length = s.dim) :
    (isApprox p s.target_position = true → isApprox v s.target_velocity = true →
      OTG_joints.setGoalPositionAndVelocity p v s = (s, none))
    ∧ (¬ (isApprox p s.target_position = true
          ∧ isApprox v s.target_velocity = true) →
      OTG_joints.setGoalPositionAndVelocity p v s =
        ({ s with goal_reached := false,
                  target_position := p,
                  target_velocity := v }, none)) := by
  unfold OTG_joints.setGoalPositionAndVelocity
  rw [if_neg (by simp [hp, hv])]
  constructor
  · intro h1 h2
    rw [if_pos]
    rw [h1, h2]
    rfl
  · intro h
    rw [if_neg]
    intro hc
    exact h (by simpa using hc)

/-- C2 witness: on the reachable goal-reached state, re-sending the same
goal is a no-op that keeps the flag true, and a different goal clears it. -/
theorem C2_goal_change_detection_witness :
    reachedState.goal_reached = true
    ∧ OTG_joints.setGoalPositionAndVelocity [1] [0] reachedState =
        (reachedState, none)
    ∧ (OTG_joints.setGoalPositionAndVelocity [2] [0] reachedState).1.goal_reached
        = false := by
  have h1 := C2_goal_change_detection [1] [0] reachedState
    (by simp [reachedState_eq]) (by simp [reachedState_eq])
  have h2 := C2_goal_change_detection [2] [0] reachedState
    (by simp [reachedState_eq]) (by simp [reachedState_eq])
  refine ⟨by rw [reachedState_eq], ?_, ?_⟩
  · apply h1.1
    · rw [reachedState_eq]
      exact isApprox_self [1]
    · rw [reachedState_eq]
      exact isApprox_self [0]
  · rw [h2.2 ?_]
    intro hc
    rw [reachedState_eq] at hc
    have := hc.1
    norm_num [isApprox, sqNorm, vsub, dummyPrecision, min_def] at this

/-- The output sample of an OTG_joints object is sized to its dimension:
together with targetsSized, part of the class invariant of the source, where
these vectors are fixed-size Eigen members. -/
def OTG_joints.outputSized (s : OTG_joints) : Prop :=
  s.new_position.length = s.dim ∧ s.new_velocity.length = s.dim
    ∧ s.new_acceleration.length = s.dim

lemma reInitialize_success (p : List ℚ) (s : OTG_joints)
    (hv : s.target_velocity.length = s.dim)
    (hnv : s.new_velocity.length = s.dim)
    (hna : s.new_acceleration.length = s.dim)
    (hlen : p.length = s.dim) :
    (OTG_joints.reInitialize p s).2 = none
    ∧ (OTG_joints.reInitialize p s).1.dim = s.dim
    ∧ (OTG_joints.reInitialize p s).1.synchronization = s.synchronization
    ∧ (OTG_joints.reInitialize p s).1.new_position = p
    ∧ (OTG_joints.reInitialize p s).1.new_velocity = zeros s.dim
    ∧ (OTG_joints.reInitialize p s).1.new_acceleration = zeros s.dim
    ∧ (OTG_joints.reInitialize p s).1.current_position = p
    ∧ (OTG_joints.reInitialize p s).1.current_velocity = zeros s.dim
    ∧ (OTG_joints.reInitialize p s).1.current_acceleration = zeros s.dim
    ∧ (isApprox p s.target_position = true ∧ s.target_velocity = zeros s.dim →
        (OTG_joints.reInitialize p s).1.target_position = s.target_position
        ∧ (OTG_joints.reInitialize p s).1.target_velocity = s.target_velocity
        ∧ (OTG_joints.reInitialize p s).1.goal_reached = s.goal_reached)
    ∧ (¬ (isApprox p s.target_position = true
          ∧ s.target_velocity = zeros s.dim) →
        (OTG_joints.reInitialize p s).1.target_position = p
        ∧ (OTG_joints.reInitialize p s).1.target_velocity = zeros s.dim
        ∧ (OTG_joints.reInitialize p s).1.goal_reached = false) := by
  have hmapv : s.new_velocity.map (fun _ => (0 : ℚ)) = zeros s.dim := by
    rw [← hnv]; simp [zeros, List.map_const']
  have hmapa : s.new_acceleration.map (fun _ => (0 : ℚ)) = zeros s.dim := by
    rw [← hna]; simp [zeros, List.map_const']
  unfold OTG_joints.reInitialize OTG_joints.setGoalPosition
    OTG_joints.setGoalPositionAndVelocity OTG_joints.pass_to_input
  rw [if_neg (by simp [hlen])]
  simp only [hmapv, hmapa]
  rw [if_neg (by simp [hlen, zeros])]
  by_cases hzero : s.target_velocity = zeros s.dim
  · by_cases happ : isApprox p s.target_position = true
    · rw [if_pos]
      · simp [happ, hzero]
      · rw [happ, (isApprox_zeros_left_iff s.dim s.target_velocity hv).mpr hzero]
        rfl
    · rw [if_neg]
      · simp [happ, hzero]
      · intro hc
        rw [Bool.and_eq_true] at hc
        exact happ hc.1
  · rw [if_neg]
    · simp [hzero]
    · intro hc
      rw [Bool.and_eq_true] at hc
      exact hzero ((isApprox_zeros_left_iff s.dim s.target_velocity hv).mp hc.2)

/-- C5 (amended): reInitialize fails with InvalidArgument on size mismatch;
otherwise it returns without error, sets the output sample to the new
position with zero velocity and acceleration and copies it into the solver
input, and issues the new position as a goal at rest through the same
approximate-change detection as setGoalPositionAndVelocity: when the tracked
goal was already approximately the new position with exactly zero tracked
goal velocity, the tracked goal and the goal-reached flag are left unchanged
(an already-true flag survives); otherwise the tracked goal becomes the new
position at rest and the goal-reached flag is cleared to false. -/
theorem C5_reinitialize_amended (p : List ℚ) (s : OTG_joints)
    (hwf : s.targetsSized) (hout : s.outputSized) :
    (p.length ≠ s.dim →
      OTG_joints.reInitialize p s =
        (s, some (OTGError.invalid_argument
          "initial position size does not match the dimension")))
    ∧ (p.length = s.dim →
        (OTG_joints.reInitialize p s).2 = none
        ∧ (OTG_joints.reInitialize p s).1.new_position = p
        ∧ (OTG_joints.reInitialize p s).1.new_velocity = zeros s.dim
        ∧ (OTG_joints.reInitialize p s).1.new_acceleration = zeros s.dim
        ∧ (OTG_joints.reInitialize p s).1.current_position = p
        ∧ (OTG_joints.reInitialize p s).1.current_velocity = zeros s.dim
        ∧ (OTG_joints.reInitialize p s).1.current_acceleration = zeros s.dim
        ∧ (isApprox p s.target_position = true ∧ s.target_velocity = zeros s.dim →
            (OTG_joints.reInitialize p s).1.target_position = s.target_position
            ∧ (OTG_joints.reInitialize p s).1.target_velocity = s.target_velocity
            ∧ (OTG_joints.reInitialize p s).1.goal_reached = s.goal_reached)
        ∧ (¬ (isApprox p s.target_position = true
              ∧ s.target_velocity = zeros s.dim) →
            (OTG_joints.reInitialize p s).1.target_position = p
            ∧ (OTG_joints.reInitialize p s).1.target_velocity = zeros s.dim
            ∧ (OTG_joints.reInitialize p s).1.goal_reached = false)) := by
  obtain ⟨hp, hv⟩ := hwf
  obtain ⟨hnp, hnv, hna⟩ := hout
  constructor
  · intro hne
    unfold OTG_joints.reInitialize
    rw [if_pos hne]
  · intro hlen
    obtain ⟨h1, h2, h3, h4, h5, h6, h7, h8, h9, h10, h11⟩ :=
      reInitialize_success p s hv hnv hna hlen
    exact ⟨h1, h4, h5, h6, h7, h8, h9, h10, h11⟩

/-- C5 counterexample: reinitializing the reachable goal-reached state to
the very position already tracked as the goal at rest takes the no-op branch
of the goal re-issue and leaves the goal-reached flag true, while the claim
says reInitialize always resets the flag to false. -/
theorem C5_flag_survives_counterexample :
    (OTG_joints.reInitialize [1] reachedState).2 = none
    ∧ (OTG_joints.reInitialize [1] reachedState).1.goal_reached = true := by
  rw [reachedState_eq]
  constructor <;>
    norm_num [OTG_joints.reInitialize, OTG_joints.setGoalPosition,
      OTG_joints.setGoalPositionAndVelocity, OTG_joints.pass_to_input,
      zeros, isApprox, sqNorm, vsub, dummyPrecision, min_def]

/-- C5 witness: the amended theorem applied to a concrete state with a new
position away from the tracked goal, showing the zeroed velocity and the
cleared flag. -/
theorem C5_reinitialize_amended_witness :
    (OTG_joints.reInitialize [9] sampleState).1.new_velocity = zeros 1
    ∧ (OTG_joints.reInitialize [9] sampleState).1.goal_reached = false := by
  have h := (C5_reinitialize_amended [9] sampleState ⟨rfl, rfl⟩
    ⟨rfl, rfl, rfl⟩).2 rfl
  refine ⟨h.2.2.1, ?_⟩
  refine (h.2.2.2.2.2.2.2.2 ?_).2.2
  intro hc
  have h2 := hc.2
  norm_num [sampleState, zeros] at h2

/-- C7: immediately after construction the dimension equals the initial
position's length, isGoalReached is false, the exposed sample is the initial
position with zero velocity and acceleration, and the synchronization policy
is phase synchronization. -/
theorem C7_construct_initial_state (p : List ℚ) (lt : ℚ) :
    (OTG_joints.construct p lt).dim = p.length
    ∧ OTG_joints.isGoalReached (OTG_joints.construct p lt) = false
    ∧ OTG_joints.getNextPosition (OTG_joints.construct p lt) = p
    ∧ OTG_joints.getNextVelocity (OTG_joints.construct p lt) = zeros p.length
    ∧ OTG_joints.getNextAcceleration (OTG_joints.construct p lt) = zeros p.length
    ∧ (OTG_joints.construct p lt).synchronization = Synchronization.Phase := by
  have hz : (zeros p.length).length = p.length := by simp [zeros]
  obtain ⟨h1, h2, h3, h4, h5, h6, h7, h8, h9, h10, h11⟩ :=
    reInitialize_success p (OTG_joints.initState p lt) hz hz hz rfl
  have hflag : (OTG_joints.construct p lt).goal_reached = false := by
    by_cases happ : isApprox p (OTG_joints.initState p lt).target_position = true
    · exact (h10 ⟨happ, rfl⟩).2.2
    · exact (h11 fun hc => happ hc.1).2.2
  exact ⟨h2, hflag, h4, h5, h6, h3⟩

/-- A concrete pose generator state with a nonzero current acceleration and
a nontrivial reference frame (a quarter-turn about the vertical axis). -/
def cartExample : OTG_6dof_cartesian :=
  { goal_reached := false
    result_value := SolverResult.Working
    reference_frame := ⟨⟨0, -1, 0⟩, ⟨1, 0, 0⟩, ⟨0, 0, 1⟩⟩
    goal_orientation_in_base_frame := ⟨⟨1, 0, 0⟩, ⟨0, 1, 0⟩, ⟨0, 0, 1⟩⟩
    goal_angular_velocity_in_base_frame := ⟨0, 0, 0⟩
    current_position := [0, 0, 0, 0, 0, 0]
    current_velocity := [0, 0, 0, 0, 0, 0]
    current_acceleration := [1, 0, 0, 0, 0, 0]
    target_position := [0, 0, 0, 0, 0, 0]
    target_velocity := [0, 0, 0, 0, 0, 0]
    max_velocity := [1, 1, 1, 1, 1, 1]
    max_acceleration := [1, 1, 1, 1, 1, 1]
    max_jerk := List.replicate 6 (JerkBound.val 1)
    new_position := [0, 0, 0, 0, 0, 0]
    new_velocity := [0, 0, 0, 1, 2, 3]
    new_acceleration := [0, 0, 0, 4, 5, 6] }

/-- C6 (amended): the joint generator disableJerkLimits sets every jerk
bound to infinity and resets the current acceleration to zero; the pose
generator disableJerkLimits sets every jerk bound to infinity but leaves
the current acceleration unchanged. -/
theorem C6_disable_jerk_amended (s : OTG_joints) (c : OTG_6dof_cartesian) :
    (OTG_joints.disableJerkLimits s).max_jerk =
        List.replicate s.max_jerk.length JerkBound.inf
    ∧ (OTG_joints.disableJerkLimits s).current_acceleration =
        zeros s.current_acceleration.length
    ∧ (OTG_6dof_cartesian.disableJerkLimits c).max_jerk =
        List.replicate c.max_jerk.length JerkBound.inf
    ∧ (OTG_6dof_cartesian.disableJerkLimits c).current_acceleration =
        c.current_acceleration := by
  refine ⟨?_, ?_, ?_, rfl⟩ <;>
    simp [OTG_joints.disableJerkLimits, OTG_6dof_cartesian.disableJerkLimits,
      zeros, List.map_const']

/-- C6 counterexample: on a pose generator state with current acceleration
(1, 0, 0, 0, 0, 0), disableJerkLimits leaves the acceleration nonzero, while
the claim says both generators reset it to zero. -/
theorem C6_cartesian_keeps_acceleration_counterexample :
    cartExample.current_acceleration = [1, 0, 0, 0, 0, 0]
    ∧ (OTG_6dof_cartesian.disableJerkLimits cartExample).current_acceleration ≠
        zeros 6 := by
  refine ⟨rfl, ?_⟩
  norm_num [OTG_6dof_cartesian.disableJerkLimits, cartExample, zeros,
    List.replicate]

lemma reInitialize_no_error (p : List ℚ) (s : OTG_joints)
    (hlen : p.length = s.dim) :
    (OTG_joints.reInitialize p s).2 = none := by
  unfold OTG_joints.reInitialize OTG_joints.setGoalPosition
    OTG_joints.setGoalPositionAndVelocity OTG_joints.pass_to_input
  rw [if_neg (by simp [hlen])]
  rw [if_neg (by simp [hlen, zeros])]
  split <;> rfl

/-- C8: whenever reInitialize, a limit setter or the goal setter returns an
error, the state it leaves behind is exactly the state it was called in:
every validation check completes before any field is written. -/
theorem C8_fail_before_mutate (s : OTG_joints) (p v gp gv : List ℚ) :
    ((OTG_joints.reInitialize p s).2 ≠ none →
        (OTG_joints.reInitialize p s).1 = s)
    ∧ ((OTG_joints.setMaxVelocity v s).2 ≠ none →
        (OTG_joints.setMaxVelocity v s).1 = s)
    ∧ ((OTG_joints.setMaxAcceleration v s).2 ≠ none →
        (OTG_joints.setMaxAcceleration v s).1 = s)
    ∧ ((OTG_joints.setMaxJerk v s).2 ≠ none →
        (OTG_joints.setMaxJerk v s).1 = s)
    ∧ ((OTG_joints.setGoalPositionAndVelocity gp gv s).2 ≠ none →
        (OTG_joints.setGoalPositionAndVelocity gp gv s).1 = s) := by
  refine ⟨?_, ?_, ?_, ?_, ?_⟩
  · intro h
    by_cases hlen : p.length = s.dim
    · exact absurd (reInitialize_no_error p s hlen) h
    · unfold OTG_joints.reInitialize
      rw [if_pos hlen]
  · unfold OTG_joints.setMaxVelocity
    split_ifs <;> simp
  · unfold OTG_joints.setMaxAcceleration
    split_ifs <;> simp
  · unfold OTG_joints.setMaxJerk
    split_ifs <;> simp
  · unfold OTG_joints.setGoalPositionAndVelocity
    split_ifs <;> simp

/-- C8 witness: a jerk setter call with a zero component fails and leaves
the concrete state unchanged. -/
theorem C8_fail_before_mutate_witness :
    (OTG_joints.setMaxJerk [0] sampleState).2 ≠ none
    ∧ (OTG_joints.setMaxJerk [0] sampleState).1 = sampleState := by
  have hne : (OTG_joints.setMaxJerk [0] sampleState).2 ≠ none := by
    norm_num [OTG_joints.setMaxJerk, hasNonPositive, sampleState]
    simp
  exact ⟨hne, (C8_fail_before_mutate sampleState [0] [0] [0] [0]).2.2.2.1 hne⟩

/-- C9: for the pose generator, the angular velocity and angular
acceleration getters return the last three components of the solver's
6-vector output rotated into the base frame by the tracked reference frame
rotation. -/
theorem C9_angular_outputs (s : OTG_6dof_cartesian)
    (v0 v1 v2 w0 w1 w2 a0 a1 a2 b0 b1 b2 : ℚ)
    (hv : s.new_velocity = [v0, v1, v2, w0, w1, w2])
    (ha : s.new_acceleration = [a0, a1, a2, b0, b1, b2]) :
    OTG_6dof_cartesian.getNextAngularVelocity s =
      s.reference_frame.mulVec ⟨w0, w1, w2⟩
    ∧ OTG_6dof_cartesian.getNextAngularAcceleration s =
      s.reference_frame.mulVec ⟨b0, b1, b2⟩ := by
  constructor <;>
    simp [OTG_6dof_cartesian.getNextAngularVelocity,
      OTG_6dof_cartesian.getNextAngularAcceleration, tail3, hv, ha]

/-- C9 witness: the theorem applied to the concrete pose state, whose
quarter-turn reference frame maps the angular parts (1, 2, 3) and (4, 5, 6)
of the solver output to (-2, 1, 3) and (-5, 4, 6) in the base frame. -/
theorem C9_angular_outputs_witness :
    OTG_6dof_cartesian.getNextAngularVelocity cartExample = ⟨-2, 1, 3⟩
    ∧ OTG_6dof_cartesian.getNextAngularAcceleration cartExample = ⟨-5, 4, 6⟩ := by
  have h := C9_angular_outputs cartExample 0 0 0 1 2 3 0 0 0 4 5 6 rfl rfl
  rw [h.1, h.2]
  constructor <;> norm_num [cartExample, Mat3Q.mulVec, Vec3Q.dot]
